import Mathlib

/-!
# Variable layout of `defs.h`

A shallow embedding of the header `src/defs.h`: the preprocessor conditionals
that select `NMODES`, `NVARS`, the enumeration constants naming the slots of the
state vector, and the table of elementary-function macros.

The build flags are the macros tested by `#if`; a flag that is undefined or zero
is `false`, any other value is `true`.
-/

namespace Defs

/-- The build flags the header tests with `#if`. -/
structure Flags where
  MFIELD : Bool
  CGL : Bool
  TWOTEMP : Bool
  MHDPIC : Bool
  SPREC : Bool
  deriving DecidableEq, Repr

/-- One conditional block `#if cond` / `#define NMODES value` / `#endif`. -/
structure Block where
  cond : Flags → Bool
  value : Nat

/-- The five `NMODES` blocks of the header, in source order (lines 35-53). -/
def nmodesBlocks : List Block :=
  [ ⟨fun f => !f.MFIELD && !f.TWOTEMP, 6⟩,
    ⟨fun f => !f.MFIELD && f.TWOTEMP, 7⟩,
    ⟨fun f => f.MFIELD && !f.CGL && !f.TWOTEMP, 9⟩,
    ⟨fun f => f.MFIELD && ((f.CGL && !f.TWOTEMP) || (!f.CGL && f.TWOTEMP)), 10⟩,
    ⟨fun f => f.MFIELD && f.CGL && f.TWOTEMP, 11⟩ ]

/-- Runs a list of conditional `#define` blocks over the current definition of
the macro: a block whose condition holds (re)defines it, the others leave it. -/
def runBlocks (f : Flags) : List Block → Option Nat → Option Nat
  | [], cur => cur
  | b :: rest, cur => runBlocks f rest (if b.cond f then some b.value else cur)

/-- The macro `NMODES` after the header is read; `none` when no block defined it. -/
def NMODES (f : Flags) : Option Nat :=
  runBlocks f nmodesBlocks none

/-- Tokens of the replacement list of an object-like macro. -/
inductive Tok where
  | num : Int → Tok
  | plus : Tok
  | minus : Tok
  | star : Tok
  deriving DecidableEq, Repr

/-- Evaluates a parenthesis-free token sequence as a C integer expression:
`*` binds tighter than `+` and `-`. `acc` is the sum of the finished terms,
`sgn` the sign of the term being read, `cur` its product so far, and `mul`
says that a `*` was just read. -/
def evalFrom (acc sgn : Int) (cur : Option Int) (mul : Bool) : List Tok → Option Int
  | [] =>
    match cur, mul with
    | some c, false => some (acc + sgn * c)
    | _, _ => none
  | Tok.num n :: rest =>
    match cur, mul with
    | none, false => evalFrom acc sgn (some n) false rest
    | some c, true => evalFrom acc sgn (some (c * n)) false rest
    | _, _ => none
  | Tok.star :: rest =>
    match cur, mul with
    | some c, false => evalFrom acc sgn (some c) true rest
    | _, _ => none
  | Tok.plus :: rest =>
    match cur, mul with
    | some c, false => evalFrom (acc + sgn * c) 1 none false rest
    | _, _ => none
  | Tok.minus :: rest =>
    match cur, mul with
    | some c, false => evalFrom (acc + sgn * c) (-1) none false rest
    | _, _ => none

/-- Value of a token sequence read as a whole expression. -/
def evalToks (ts : List Tok) : Option Int :=
  evalFrom 0 1 none false ts

/-- Replacement list of `NVARS` with `NMODES` already replaced by its value:
`#define NVARS NMODES` without a magnetic field (line 77) and
`#define NVARS NMODES+3` with one (line 85). -/
def NVARS_tokens (f : Flags) : Option (List Tok) :=
  match NMODES f with
  | none => none
  | some n =>
    if !f.MFIELD then some [Tok.num n]
    else some [Tok.num n, Tok.plus, Tok.num 3]

/-- Value of the expression `NVARS` standing alone. -/
def NVARS (f : Flags) : Option Int :=
  (NVARS_tokens f).bind evalToks

/-- The macro `NPRT_PROP` (lines 87-89), defined inside the `#else` branch of
`#if !MFIELD` and only under `#if MHDPIC`. -/
def NPRT_PROP (f : Flags) : Option Nat :=
  if !f.MFIELD then none
  else if f.MHDPIC then some 10 else none

/-- Names of the enumeration constants that index the state vector. -/
inductive Slot where
  | RHO | MX | MY | MZ | EN
  | VX | VY | VZ | PR
  | PSC
  | BX | BY | BZ
  | BXC | BYC | BZC
  | BXF | BYF | BZF
  | LA | PPD
  | SE | PE
  deriving DecidableEq, Repr

/-- Value of `PSC`: `NMODES-1` (line 78) or `NMODES-4` (line 91). -/
def PSC (f : Flags) : Option Int :=
  match NMODES f with
  | none => none
  | some n => if !f.MFIELD then some ((n : Int) - 1) else some ((n : Int) - 4)

/-- Value of `BZ = NMODES-1` (line 92), declared only with a magnetic field. -/
def BZ (f : Flags) : Option Int :=
  if !f.MFIELD then none
  else (NMODES f).map (fun n => (n : Int) - 1)

/-- Value of `EN`: the fifth enumerator of `enum {RHO=0, MX,MY,MZ, EN}`. -/
def EN : Int := 0 + 1 + 1 + 1 + 1

/-- Value of `PR`: the fourth enumerator of `enum {VX=1,VY,VZ, PR}`. -/
def PR : Int := 1 + 1 + 1 + 1

/-- Value of each enumeration constant, `none` when the header does not
declare it under the given flags (lines 70-106). -/
def offset (f : Flags) : Slot → Option Int
  | Slot.RHO => some 0
  | Slot.MX => some (0 + 1)
  | Slot.MY => some (0 + 1 + 1)
  | Slot.MZ => some (0 + 1 + 1 + 1)
  | Slot.EN => some EN
  | Slot.VX => some 1
  | Slot.VY => some (1 + 1)
  | Slot.VZ => some (1 + 1 + 1)
  | Slot.PR => some PR
  | Slot.PSC => PSC f
  | Slot.BX => if !f.MFIELD then none else (NMODES f).map (fun n => (n : Int) - 3)
  | Slot.BY => if !f.MFIELD then none else (NMODES f).map (fun n => (n : Int) - 2)
  | Slot.BZ => BZ f
  | Slot.BXC =>
    if !f.MFIELD then some 990 else (NMODES f).map (fun n => (n : Int) - 3)
  | Slot.BYC =>
    if !f.MFIELD then some (990 + 1) else (NMODES f).map (fun n => (n : Int) - 2)
  | Slot.BZC =>
    if !f.MFIELD then some (990 + 1 + 1) else BZ f
  | Slot.BXF =>
    if !f.MFIELD then some 993 else (BZ f).map (fun b => b + 1)
  | Slot.BYF =>
    if !f.MFIELD then some (993 + 1) else (BZ f).map (fun b => b + 2)
  | Slot.BZF =>
    if !f.MFIELD then some (993 + 1 + 1) else (BZ f).map (fun b => b + 3)
  | Slot.LA => if f.CGL then some (EN + 1) else none
  | Slot.PPD => if f.CGL then some (PR + 1) else none
  | Slot.SE => if f.TWOTEMP then (PSC f).map (fun p => p - 1) else none
  | Slot.PE => if f.TWOTEMP then (PSC f).map (fun p => p - 1) else none

/-- Library functions of `math.h` the header's function-like macros call. -/
inductive LibFn where
  | powf | logf | expf | sqrtf
  | pow | log | exp | sqrt
  deriving DecidableEq, Repr

/-- Names of the elementary operations the header defines (lines 126-152). -/
inductive MathName where
  | FABS | POW | LOG | EXP | SQRT | FSIGN
  deriving DecidableEq, Repr

/-- Replacement text of a function-like macro with the one parameter `a`. -/
inductive CExpr where
  | arg : CExpr
  | lit : Int → CExpr
  | neg : CExpr → CExpr
  | lt : CExpr → CExpr → CExpr
  | gt : CExpr → CExpr → CExpr
  | cond : CExpr → CExpr → CExpr → CExpr
  | call : LibFn → CExpr → CExpr
  deriving DecidableEq, Repr

/-- Body shared by both `FABS` definitions: `((a) < 0) ? -(a) : (a)`. -/
def fabsBody : CExpr :=
  CExpr.cond (CExpr.lt CExpr.arg (CExpr.lit 0)) (CExpr.neg CExpr.arg) CExpr.arg

/-- Body shared by both `FSIGN` definitions:
`((a) < 0) ? -1 : (((a) > 0) ? 1 : 0)`. -/
def fsignBody : CExpr :=
  CExpr.cond (CExpr.lt CExpr.arg (CExpr.lit 0)) (CExpr.neg (CExpr.lit 1))
    (CExpr.cond (CExpr.gt CExpr.arg (CExpr.lit 0)) (CExpr.lit 1) (CExpr.lit 0))

/-- The `#define` directives of the elementary operations in source order:
lines 131-137 under `#if SPREC`, lines 144-150 otherwise. -/
def mathDefines (f : Flags) : List (MathName × CExpr) :=
  if f.SPREC then
    [ (MathName.FABS, fabsBody),
      (MathName.POW, CExpr.call LibFn.powf CExpr.arg),
      (MathName.POW, CExpr.call LibFn.logf CExpr.arg),
      (MathName.EXP, CExpr.call LibFn.expf CExpr.arg),
      (MathName.SQRT, CExpr.call LibFn.sqrtf CExpr.arg),
      (MathName.FSIGN, fsignBody) ]
  else
    [ (MathName.FABS, fabsBody),
      (MathName.POW, CExpr.call LibFn.pow CExpr.arg),
      (MathName.LOG, CExpr.call LibFn.log CExpr.arg),
      (MathName.EXP, CExpr.call LibFn.exp CExpr.arg),
      (MathName.SQRT, CExpr.call LibFn.sqrt CExpr.arg),
      (MathName.FSIGN, fsignBody) ]

/-- Reads a list of `#define` directives in order; a later directive for the
same name replaces the earlier one. -/
def runDefines (name : MathName) : List (MathName × CExpr) → Option CExpr → Option CExpr
  | [], cur => cur
  | (n, body) :: rest, cur => runDefines name rest (if n = name then some body else cur)

/-- Definition of an elementary operation once the header is read. -/
def mathDef (f : Flags) (name : MathName) : Option CExpr :=
  runDefines name (mathDefines f) none

/-- Names that have at least one `#define` directive. -/
def definedNames (f : Flags) : List MathName :=
  (mathDefines f).map Prod.fst

/-- Blocks of the `NMODES` list whose `#if` condition holds. -/
def activeBlocks (f : Flags) : List Block :=
  nmodesBlocks.filter (fun b => b.cond f)

/-- Value of an expression in which the name `NVARS` is written between the
tokens `pre` and `post`: the replacement list is spliced in at the place of
use and the whole token sequence is then evaluated. -/
def expandAtUse (f : Flags) (pre post : List Tok) : Option Int :=
  (NVARS_tokens f).bind (fun ts => evalToks (pre ++ ts ++ post))

/-- Values of type `real`: the finite values, the two infinities and NaN.
Negative zero compares equal to zero and is not kept apart. -/
inductive Val where
  | nan : Val
  | negInf : Val
  | fin : Rat → Val
  | posInf : Val
  deriving DecidableEq

/-- The comparison `x < y`; it is false as soon as one side is NaN. -/
def Val.lt : Val → Val → Bool
  | Val.nan, _ => false
  | _, Val.nan => false
  | Val.negInf, Val.negInf => false
  | Val.negInf, _ => true
  | Val.fin _, Val.negInf => false
  | Val.fin a, Val.fin b => decide (a < b)
  | Val.fin _, Val.posInf => true
  | Val.posInf, _ => false

/-- Unary minus. -/
def Val.neg : Val → Val
  | Val.nan => Val.nan
  | Val.negInf => Val.posInf
  | Val.fin a => Val.fin (-a)
  | Val.posInf => Val.negInf

/-- Truth of a value used as the condition of `?:`: anything but zero. -/
def Val.truthy : Val → Bool
  | Val.fin a => decide (a ≠ 0)
  | _ => true

/-- Value of a replacement text at the argument `a`. A comparison yields 1 or
0; `c ? x : y` evaluates one branch only; calls into `math.h` have no value
here. -/
def evalC (a : Val) : CExpr → Option Val
  | CExpr.arg => some a
  | CExpr.lit n => some (Val.fin n)
  | CExpr.neg e => (evalC a e).map Val.neg
  | CExpr.lt x y =>
    match evalC a x, evalC a y with
    | some u, some v => some (Val.fin (if u.lt v then 1 else 0))
    | _, _ => none
  | CExpr.gt x y =>
    match evalC a x, evalC a y with
    | some u, some v => some (Val.fin (if v.lt u then 1 else 0))
    | _, _ => none
  | CExpr.cond c x y =>
    match evalC a c with
    | some v => if v.truthy then evalC a x else evalC a y
    | none => none
  | CExpr.call _ _ => none

/-- Value of `FSIGN(a)` under the given flags. -/
def FSIGN (f : Flags) (a : Val) : Option Val :=
  (mathDef f MathName.FSIGN).bind (evalC a)

/-- The predefined compiler macros tested by `defined(...)` on lines 18-28. -/
structure Caps where
  AVX512F : Bool
  AVX : Bool
  AVX2 : Bool
  SSE2 : Bool
  deriving DecidableEq, Repr

/-- The `#if / #elif / #else` chain that defines `SIMD_WIDTH` (lines 18-28). -/
def SIMD_WIDTH (c : Caps) : Nat :=
  if c.AVX512F then 8
  else if c.AVX then 4
  else if c.AVX2 then 4
  else if c.SSE2 then 2
  else 4

/-! ## Notions taken from the specification -/

/-- The rows of the mode-count table of section 4.1 of the specification, as
predicate on `(MFIELD, CGL, TWOTEMP)`. -/
def inTable (f : Flags) : Bool :=
  (f.MFIELD, f.CGL, f.TWOTEMP) ∈
    [ (false, false, false), (false, false, true), (true, false, false),
      (true, true, false), (true, false, true), (true, true, true) ]

/-- The slots said to coexist in a configuration: `RHO, MX, MY, MZ, EN, PSC`
always, `LA` with CGL, `SE` with two temperatures, and the cell-centered and
face-centered field components with a magnetic field. -/
def coexisting (f : Flags) : List Slot :=
  [Slot.RHO, Slot.MX, Slot.MY, Slot.MZ, Slot.EN, Slot.PSC]
    ++ (if f.CGL then [Slot.LA] else [])
    ++ (if f.TWOTEMP then [Slot.SE] else [])
    ++ (if f.MFIELD then [Slot.BX, Slot.BY, Slot.BZ, Slot.BXF, Slot.BYF, Slot.BZF] else [])

/-- Offsets of the coexisting slots, in the order of `coexisting`. -/
def coexistingOffsets (f : Flags) : List (Option Int) :=
  (coexisting f).map (offset f)

/-- The elementary function each operation name is specified to denote under
the single-precision policy (`true`) and the double-precision one. -/
def specLibFn (sprec : Bool) : MathName → Option LibFn
  | MathName.POW => some (if sprec then LibFn.powf else LibFn.pow)
  | MathName.LOG => some (if sprec then LibFn.logf else LibFn.log)
  | MathName.EXP => some (if sprec then LibFn.expf else LibFn.exp)
  | MathName.SQRT => some (if sprec then LibFn.sqrtf else LibFn.sqrt)
  | MathName.FABS => none
  | MathName.FSIGN => none

/-- The three-way sign the specification asks of `FSIGN`. -/
def specSign (a : Val) : Val :=
  if a.lt (Val.fin 0) then Val.fin (-1)
  else if (Val.fin 0).lt a then Val.fin 1
  else Val.fin 0

/-- The lane count the specification gives for the capability flags: 8 with
`AVX512F`, else 4 with `AVX` or `AVX2`, else 2 with `SSE2`, else 4. -/
def specSimdWidth (c : Caps) : Nat :=
  if c.AVX512F then 8
  else if c.AVX || c.AVX2 then 4
  else if c.SSE2 then 2
  else 4

/-- The additive reading of the mode count: 6, plus 3 for the magnetic field,
plus 1 for CGL, plus 1 for two temperatures. -/
def specAdditive (f : Flags) : Nat :=
  6 + 3 * (if f.MFIELD then 1 else 0) + (if f.CGL then 1 else 0)
    + (if f.TWOTEMP then 1 else 0)

/-- Flags of a tuple `(hasMagneticField, hasCGLClosure, hasTwoTemperature,
hasParticleCoupling)`, in double precision. -/
def flagsOf (x : Bool × Bool × Bool × Bool) : Flags :=
  ⟨x.1, x.2.1, x.2.2.1, x.2.2.2, false⟩

/-- Every tuple `(hasMagneticField, hasCGLClosure, hasTwoTemperature,
hasParticleCoupling)`. -/
def allTuples : List (Bool × Bool × Bool × Bool) :=
  [false, true].flatMap (fun m => [false, true].flatMap (fun c =>
    [false, true].flatMap (fun t => [false, true].map (fun p => (m, c, t, p)))))

/-- The header read to its end without a use of an undefined name: `NMODES`,
`NVARS` and every enumeration constant of the coexisting slots have a value. -/
def resolves (f : Flags) : Bool :=
  (NMODES f).isSome && (NVARS f).isSome && (coexisting f).all (fun s => (offset f s).isSome)

/-- The tuples the specification calls valid: a row of the mode-count table,
and particle coupling only together with a magnetic field. -/
def specValid (x : Bool × Bool × Bool × Bool) : Bool :=
  inTable (flagsOf x) && (!x.2.2.2 || x.1)

/-! ## Basic facts -/

/-- `NMODES` is decided by the first three flags alone. -/
theorem NMODES_eq (m c t p s : Bool) :
    NMODES ⟨m, c, t, p, s⟩ = NMODES ⟨m, c, t, false, false⟩ := by
  cases m <;> cases c <;> cases t <;> rfl

/-- The flag `MHDPIC` takes no part in `NMODES`, `NVARS` or any offset. -/
theorem layout_ignores_MHDPIC (f : Flags) (b : Bool) :
    NMODES { f with MHDPIC := b } = NMODES f
      ∧ NVARS { f with MHDPIC := b } = NVARS f
      ∧ ∀ s : Slot, offset { f with MHDPIC := b } s = offset f s := by
  rcases f with ⟨_ | _, _ | _, _ | _, p, s⟩ <;>
    exact ⟨rfl, rfl, fun s => by cases s <;> rfl⟩

/-! ## The mode count -/

/-- C1: on each of the six rows of the mode-count table `NMODES` is the table
value (6, 7, 9, 10, 10, 11), whatever `MHDPIC` and `SPREC` are. -/
theorem C1_nmodes_matches_table (p s : Bool) :
    NMODES ⟨false, false, false, p, s⟩ = some 6
      ∧ NMODES ⟨false, false, true, p, s⟩ = some 7
      ∧ NMODES ⟨true, false, false, p, s⟩ = some 9
      ∧ NMODES ⟨true, true, false, p, s⟩ = some 10
      ∧ NMODES ⟨true, false, true, p, s⟩ = some 10
      ∧ NMODES ⟨true, true, true, p, s⟩ = some 11 := by
  refine ⟨rfl, rfl, rfl, rfl, rfl, rfl⟩

/-- C2: on every row of the mode-count table the offsets of the coexisting
slots are all declared, pairwise distinct, and are exactly the integers
`0, 1, ..., NVARS-1`. -/
theorem C2_offsets_span_range (f : Flags) (h : inTable f = true) :
    ∃ n : Int, NVARS f = some n
      ∧ (∀ s ∈ coexisting f, (offset f s).isSome = true)
      ∧ (coexistingOffsets f).Nodup
      ∧ ∀ k : Int, some k ∈ coexistingOffsets f ↔ 0 ≤ k ∧ k < n := by
  rcases f with ⟨_ | _, _ | _, _ | _, _ | _, _ | _⟩
  all_goals first
    | exact absurd h (by decide)
    | refine ⟨_, rfl, by decide, by decide, fun k => ?_⟩
      simp [coexistingOffsets, coexisting, offset, PSC, BZ, NMODES, runBlocks, nmodesBlocks,
        EN]
      omega

/-- Witness of C2 at the configuration with every physics flag set. -/
theorem C2_offsets_span_range_witness :
    ∃ n : Int, NVARS ⟨true, true, true, false, false⟩ = some n
      ∧ (∀ s ∈ coexisting ⟨true, true, true, false, false⟩,
          (offset ⟨true, true, true, false, false⟩ s).isSome = true)
      ∧ (coexistingOffsets ⟨true, true, true, false, false⟩).Nodup
      ∧ ∀ k : Int, some k ∈ coexistingOffsets ⟨true, true, true, false, false⟩
          ↔ 0 ≤ k ∧ k < n :=
  C2_offsets_span_range ⟨true, true, true, false, false⟩ (by decide)

/-- C3 (counterexample): with `CGL` set and `MFIELD` clear, a combination
outside the mode-count table, the header still defines `NMODES = 6`,
`NVARS = 6` and `PSC = 5`. -/
theorem C3_cgl_without_field_resolves :
    inTable ⟨false, true, false, false, false⟩ = false
      ∧ NMODES ⟨false, true, false, false, false⟩ = some 6
      ∧ NVARS ⟨false, true, false, false, false⟩ = some 6
      ∧ offset ⟨false, true, false, false, false⟩ Slot.PSC = some 5 := by
  decide

/-- C3 (amended): every combination outside the mode-count table has `CGL`
set and `MFIELD` clear, and the header accepts it: `NMODES` is defined as if
`CGL` were clear, 6 without `TWOTEMP` and 7 with it, and `NVARS = NMODES`. -/
theorem C3_off_table_ignores_CGL (f : Flags) (h : inTable f = false) :
    f.CGL = true ∧ f.MFIELD = false
      ∧ NMODES f = NMODES { f with CGL := false }
      ∧ NMODES f = some (if f.TWOTEMP then 7 else 6)
      ∧ NVARS f = some (if f.TWOTEMP then 7 else 6) := by
  rcases f with ⟨_ | _, _ | _, _ | _, _ | _, _ | _⟩
  all_goals first
    | exact absurd h (by decide)
    | exact ⟨rfl, rfl, rfl, rfl, rfl⟩

/-- Witness of the amended C3 at `CGL` and `TWOTEMP` set, `MFIELD` clear. -/
theorem C3_off_table_ignores_CGL_witness :
    inTable ⟨false, true, true, false, false⟩ = false
      ∧ NMODES ⟨false, true, true, false, false⟩ = some 7
      ∧ NVARS ⟨false, true, true, false, false⟩ = some 7 :=
  ⟨by decide,
    (C3_off_table_ignores_CGL ⟨false, true, true, false, false⟩ (by decide)).2.2.2.1,
    (C3_off_table_ignores_CGL ⟨false, true, true, false, false⟩ (by decide)).2.2.2.2⟩

/-! ## The index assignment -/

/-- C4: with a magnetic field `NVARS = NMODES + 3`, `PSC = NMODES - 4`, the
cell-centered components `BX = BXC`, `BY = BYC`, `BZ = BZC` are
`NMODES - 3 .. NMODES - 1` and the face-centered `BXF`, `BYF`, `BZF` are
`NMODES .. NMODES + 2`. -/
theorem C4_field_layout (f : Flags) (h : f.MFIELD = true) :
    ∃ n : Nat, NMODES f = some n
      ∧ NVARS f = some ((n : Int) + 3)
      ∧ offset f Slot.PSC = some ((n : Int) - 4)
      ∧ offset f Slot.BX = some ((n : Int) - 3)
      ∧ offset f Slot.BXC = some ((n : Int) - 3)
      ∧ offset f Slot.BY = some ((n : Int) - 2)
      ∧ offset f Slot.BYC = some ((n : Int) - 2)
      ∧ offset f Slot.BZ = some ((n : Int) - 1)
      ∧ offset f Slot.BZC = some ((n : Int) - 1)
      ∧ offset f Slot.BXF = some (n : Int)
      ∧ offset f Slot.BYF = some ((n : Int) + 1)
      ∧ offset f Slot.BZF = some ((n : Int) + 2) := by
  rcases f with ⟨_ | _, _ | _, _ | _, _ | _, _ | _⟩
  all_goals first
    | exact absurd h (by decide)
    | exact ⟨_, rfl, by decide⟩

/-- Witness of C4 at the configuration with field, CGL and two temperatures. -/
theorem C4_field_layout_witness :
    ∃ n : Nat, NMODES ⟨true, true, true, false, false⟩ = some n
      ∧ NVARS ⟨true, true, true, false, false⟩ = some ((n : Int) + 3)
      ∧ offset ⟨true, true, true, false, false⟩ Slot.PSC = some ((n : Int) - 4)
      ∧ offset ⟨true, true, true, false, false⟩ Slot.BX = some ((n : Int) - 3)
      ∧ offset ⟨true, true, true, false, false⟩ Slot.BXC = some ((n : Int) - 3)
      ∧ offset ⟨true, true, true, false, false⟩ Slot.BY = some ((n : Int) - 2)
      ∧ offset ⟨true, true, true, false, false⟩ Slot.BYC = some ((n : Int) - 2)
      ∧ offset ⟨true, true, true, false, false⟩ Slot.BZ = some ((n : Int) - 1)
      ∧ offset ⟨true, true, true, false, false⟩ Slot.BZC = some ((n : Int) - 1)
      ∧ offset ⟨true, true, true, false, false⟩ Slot.BXF = some (n : Int)
      ∧ offset ⟨true, true, true, false, false⟩ Slot.BYF = some ((n : Int) + 1)
      ∧ offset ⟨true, true, true, false, false⟩ Slot.BZF = some ((n : Int) + 2) :=
  C4_field_layout ⟨true, true, true, false, false⟩ rfl

/-- C5: without a magnetic field `NVARS = NMODES` and `PSC = NMODES - 1` is the
last slot; with `CGL` and `TWOTEMP` clear as well, `NMODES = NVARS = 6` and
`RHO, MX, MY, MZ, EN, PSC` are `0, 1, 2, 3, 4, 5`. -/
theorem C5_no_field_layout (f : Flags) (h : f.MFIELD = false) :
    (∃ n : Nat, NMODES f = some n
        ∧ NVARS f = some (n : Int)
        ∧ offset f Slot.PSC = some ((n : Int) - 1))
      ∧ (f.CGL = false → f.TWOTEMP = false →
          NMODES f = some 6 ∧ NVARS f = some 6
            ∧ offset f Slot.RHO = some 0 ∧ offset f Slot.MX = some 1
            ∧ offset f Slot.MY = some 2 ∧ offset f Slot.MZ = some 3
            ∧ offset f Slot.EN = some 4 ∧ offset f Slot.PSC = some 5) := by
  rcases f with ⟨_ | _, _ | _, _ | _, _ | _, _ | _⟩
  all_goals first
    | exact absurd h (by decide)
    | exact ⟨⟨_, rfl, by decide⟩, by decide⟩

/-- Witness of C5 at the configuration with every flag clear. -/
theorem C5_no_field_layout_witness :
    NMODES ⟨false, false, false, false, false⟩ = some 6
      ∧ NVARS ⟨false, false, false, false, false⟩ = some 6
      ∧ offset ⟨false, false, false, false, false⟩ Slot.RHO = some 0
      ∧ offset ⟨false, false, false, false, false⟩ Slot.MX = some 1
      ∧ offset ⟨false, false, false, false, false⟩ Slot.MY = some 2
      ∧ offset ⟨false, false, false, false, false⟩ Slot.MZ = some 3
      ∧ offset ⟨false, false, false, false, false⟩ Slot.EN = some 4
      ∧ offset ⟨false, false, false, false, false⟩ Slot.PSC = some 5 :=
  (C5_no_field_layout ⟨false, false, false, false, false⟩ rfl).2 rfl rfl

/-- C6: without a magnetic field the boundary-condition aliases are the
sentinels `BXC = 990, BYC = 991, BZC = 992, BXF = 993, BYF = 994, BZF = 995`;
in every configuration `NVARS` is at most 14, so no value in `990 .. 995` lies
in `[0, NVARS)`. -/
theorem C6_sentinels_out_of_range (f : Flags) :
    (f.MFIELD = false →
        offset f Slot.BXC = some 990 ∧ offset f Slot.BYC = some 991
          ∧ offset f Slot.BZC = some 992 ∧ offset f Slot.BXF = some 993
          ∧ offset f Slot.BYF = some 994 ∧ offset f Slot.BZF = some 995)
      ∧ ∃ n : Int, NVARS f = some n ∧ n ≤ 14
          ∧ ∀ k : Int, 990 ≤ k → k ≤ 995 → ¬ (0 ≤ k ∧ k < n) := by
  rcases f with ⟨_ | _, _ | _, _ | _, _ | _, _ | _⟩
  all_goals
    refine ⟨by decide, _, rfl, by decide, fun k h1 _ h3 => ?_⟩
    have h4 := h3.2
    simp only [] at h4
    omega

/-- Witness of C6 at the configuration with only two temperatures set. -/
theorem C6_sentinels_out_of_range_witness :
    offset ⟨false, false, true, false, false⟩ Slot.BXC = some 990
      ∧ offset ⟨false, false, true, false, false⟩ Slot.BYC = some 991
      ∧ offset ⟨false, false, true, false, false⟩ Slot.BZC = some 992
      ∧ offset ⟨false, false, true, false, false⟩ Slot.BXF = some 993
      ∧ offset ⟨false, false, true, false, false⟩ Slot.BYF = some 994
      ∧ offset ⟨false, false, true, false, false⟩ Slot.BZF = some 995 :=
  (C6_sentinels_out_of_range ⟨false, false, true, false, false⟩).1 rfl

/-- C7: with two temperatures `SE` and `PE` are the same offset `PSC - 1`,
which is 5 when `CGL` is clear and 6 when `MFIELD` and `CGL` are set. -/
theorem C7_electron_slot (f : Flags) (h : f.TWOTEMP = true) :
    ∃ p : Int, offset f Slot.PSC = some p
      ∧ offset f Slot.SE = some (p - 1)
      ∧ offset f Slot.PE = some (p - 1)
      ∧ (f.CGL = false → offset f Slot.SE = some 5)
      ∧ (f.MFIELD = true → f.CGL = true → offset f Slot.SE = some 6) := by
  rcases f with ⟨_ | _, _ | _, _ | _, _ | _, _ | _⟩
  all_goals first
    | exact absurd h (by decide)
    | exact ⟨_, rfl, by decide⟩

/-- Witness of C7 at the configuration with field, CGL and two temperatures. -/
theorem C7_electron_slot_witness :
    ∃ p : Int, offset ⟨true, true, true, false, false⟩ Slot.PSC = some p
      ∧ offset ⟨true, true, true, false, false⟩ Slot.SE = some (p - 1)
      ∧ offset ⟨true, true, true, false, false⟩ Slot.PE = some (p - 1)
      ∧ offset ⟨true, true, true, false, false⟩ Slot.SE = some 6 :=
  match C7_electron_slot ⟨true, true, true, false, false⟩ rfl with
  | ⟨p, h1, h2, h3, _, h5⟩ => ⟨p, h1, h2, h3, h5 rfl rfl⟩

/-- C8: `NPRT_PROP` is defined exactly when `MFIELD` and `MHDPIC` are both
set, its value is then 10, and changing `MHDPIC` changes neither `NMODES`,
`NVARS` nor the offset of any slot. -/
theorem C8_particle_record (f : Flags) :
    ((NPRT_PROP f).isSome = true ↔ f.MFIELD = true ∧ f.MHDPIC = true)
      ∧ (∀ v : Nat, NPRT_PROP f = some v → v = 10)
      ∧ ∀ b : Bool, NMODES { f with MHDPIC := b } = NMODES f
          ∧ NVARS { f with MHDPIC := b } = NVARS f
          ∧ ∀ s : Slot, offset { f with MHDPIC := b } s = offset f s := by
  refine ⟨?_, ?_, fun b => layout_ignores_MHDPIC f b⟩
  · rcases f with ⟨_ | _, _ | _, _ | _, _ | _, _ | _⟩ <;> decide
  · intro v hv
    rcases f with ⟨_ | _, _ | _, _ | _, _ | _, _ | _⟩ <;>
      simp [NPRT_PROP] at hv <;> omega

/-- Witness of C8 at the configuration with field and particle coupling. -/
theorem C8_particle_record_witness :
    (NPRT_PROP ⟨true, false, false, true, false⟩).isSome = true
      ∧ NMODES ⟨true, false, false, false, false⟩ = NMODES ⟨true, false, false, true, false⟩ :=
  ⟨(C8_particle_record ⟨true, false, false, true, false⟩).1.mpr ⟨rfl, rfl⟩,
    ((C8_particle_record ⟨true, false, false, true, false⟩).2.2 false).1⟩

/-- C9 (counterexample): with `MHDPIC` set and `MFIELD` clear the header still
defines `NMODES = 6`, `NVARS = 6` and `PSC = 5`. -/
theorem C9_particles_without_field_resolves :
    NMODES ⟨false, false, false, true, false⟩ = some 6
      ∧ NVARS ⟨false, false, false, true, false⟩ = some 6
      ∧ offset ⟨false, false, false, true, false⟩ Slot.PSC = some 5
      ∧ NPRT_PROP ⟨false, false, false, true, false⟩ = none := by
  decide

/-- C9 (amended): with `MHDPIC` set and `MFIELD` clear nothing is rejected;
`MHDPIC` is ignored: `NPRT_PROP` stays undefined while `NMODES`, `NVARS` and
`PSC` are defined, and they and every offset are those of the same
configuration with `MHDPIC` clear. -/
theorem C9_particles_without_field_ignored (f : Flags)
    (hp : f.MHDPIC = true) (hm : f.MFIELD = false) :
    NPRT_PROP f = none
      ∧ (NMODES f).isSome = true ∧ (NVARS f).isSome = true
      ∧ (offset f Slot.PSC).isSome = true
      ∧ NMODES f = NMODES { f with MHDPIC := false }
      ∧ NVARS f = NVARS { f with MHDPIC := false }
      ∧ ∀ s : Slot, offset f s = offset { f with MHDPIC := false } s := by
  rcases f with ⟨_ | _, _ | _, _ | _, _ | _, _ | _⟩
  all_goals first
    | exact absurd hp (by decide)
    | exact absurd hm (by decide)
    | exact ⟨rfl, rfl, rfl, rfl, rfl, rfl, fun s => by cases s <;> rfl⟩

/-- Witness of the amended C9 at `MHDPIC` and `TWOTEMP` set, `MFIELD` clear. -/
theorem C9_particles_without_field_ignored_witness :
    NPRT_PROP ⟨false, false, true, true, false⟩ = none
      ∧ (NMODES ⟨false, false, true, true, false⟩).isSome = true
      ∧ (NVARS ⟨false, false, true, true, false⟩).isSome = true :=
  ⟨(C9_particles_without_field_ignored ⟨false, false, true, true, false⟩ rfl rfl).1,
    (C9_particles_without_field_ignored ⟨false, false, true, true, false⟩ rfl rfl).2.1,
    (C9_particles_without_field_ignored ⟨false, false, true, true, false⟩ rfl rfl).2.2.1⟩

/-! ## The elementary operations -/

/-- C10: under `SPREC` the name `LOG` has no `#define` directive and `POW`,
defined twice, ends as a call of `logf`, whereas the specified meanings are
`logf` for `LOG` and `powf` for `POW`; without `SPREC` the names `POW`, `LOG`,
`EXP`, `SQRT` call `pow`, `log`, `exp`, `sqrt` as specified. -/
theorem C10_sprec_LOG_missing (m c t p : Bool) :
    mathDef ⟨m, c, t, p, true⟩ MathName.LOG = none
      ∧ MathName.LOG ∉ definedNames ⟨m, c, t, p, true⟩
      ∧ mathDef ⟨m, c, t, p, true⟩ MathName.POW = some (CExpr.call LibFn.logf CExpr.arg)
      ∧ specLibFn true MathName.LOG = some LibFn.logf
      ∧ specLibFn true MathName.POW = some LibFn.powf
      ∧ (∀ n : MathName, ∀ fn : LibFn, specLibFn false n = some fn →
          mathDef ⟨m, c, t, p, false⟩ n = some (CExpr.call fn CExpr.arg)) := by
  refine ⟨rfl, by simp [definedNames, mathDefines], rfl, rfl, rfl, fun n fn h => ?_⟩
  cases n <;> simp [specLibFn] at h <;> subst h <;> rfl

/-- The definition of `FSIGN` is the same three-way conditional under both
precision policies. -/
theorem mathDef_FSIGN (f : Flags) : mathDef f MathName.FSIGN = some fsignBody := by
  rcases f with ⟨m, c, t, p, _ | _⟩ <;> rfl

/-- C11: under both precision policies `FSIGN(a)` is -1 for `a < 0`, +1 for
`a > 0` and 0 otherwise (zero and NaN included); `FSIGN(0)` is exactly 0. -/
theorem C11_fsign_three_way (f : Flags) (a : Val) :
    FSIGN f a = some (specSign a)
      ∧ FSIGN f (Val.fin 0) = some (Val.fin 0)
      ∧ (a.lt (Val.fin 0) = true → FSIGN f a = some (Val.fin (-1)))
      ∧ ((Val.fin 0).lt a = true → FSIGN f a = some (Val.fin 1))
      ∧ (a.lt (Val.fin 0) = false → (Val.fin 0).lt a = false →
          FSIGN f a = some (Val.fin 0)) := by
  have key : ∀ b : Val, FSIGN f b = some (specSign b) := by
    intro b
    simp only [FSIGN, mathDef_FSIGN, Option.some_bind, fsignBody, evalC, specSign]
    cases b <;> simp [Val.lt, Val.truthy, Val.neg, Option.map]
    rename_i q
    by_cases h1 : q < 0
    · simp [h1]
    · by_cases h2 : 0 < q <;> simp [h1, h2]
  refine ⟨key a, ?_, ?_, ?_, ?_⟩
  · rw [key]; simp [specSign, Val.lt]
  · intro h; rw [key]; simp [specSign, h]
  · intro h; rw [key]
    have h0 : a.lt (Val.fin 0) = false := by
      cases a <;> simp_all [Val.lt]
      rename_i q; exact le_of_lt h
    simp [specSign, h, h0]
  · intro h1 h2; rw [key]; simp [specSign, h1, h2]

/-- Witness of C11 at the arguments -3/2, 7 and NaN in single precision. -/
theorem C11_fsign_three_way_witness :
    FSIGN ⟨false, false, false, false, true⟩ (Val.fin (-3 / 2)) = some (Val.fin (-1))
      ∧ FSIGN ⟨false, false, false, false, true⟩ (Val.fin 7) = some (Val.fin 1)
      ∧ FSIGN ⟨false, false, false, false, true⟩ Val.nan = some (Val.fin 0) :=
  ⟨(C11_fsign_three_way ⟨false, false, false, false, true⟩ (Val.fin (-3 / 2))).2.2.1
      (by simp [Val.lt]; norm_num),
    (C11_fsign_three_way ⟨false, false, false, false, true⟩ (Val.fin 7)).2.2.2.1
      (by simp [Val.lt]),
    (C11_fsign_three_way ⟨false, false, false, false, true⟩ Val.nan).2.2.2.2 rfl rfl⟩

/-- C12: for all sixteen combinations of the capability flags `SIMD_WIDTH` is
8 with `AVX512F`, else 4 with `AVX` or `AVX2`, else 2 with `SSE2`, else 4. -/
theorem C12_simd_width (c : Caps) : SIMD_WIDTH c = specSimdWidth c := by
  rcases c with ⟨_ | _, _ | _, _ | _, _ | _⟩ <;> rfl

/-! ## The configuration space -/

/-- C13: two configurations, in particular two rows of the mode-count table,
that differ in `(MFIELD, CGL, TWOTEMP)` differ in their layout: some slot is
declared in one and not the other, or has a different offset. -/
theorem C13_layout_injective (f g : Flags)
    (hne : (f.MFIELD, f.CGL, f.TWOTEMP) ≠ (g.MFIELD, g.CGL, g.TWOTEMP)) :
    ∃ s : Slot, offset f s ≠ offset g s := by
  have hLA : ∀ h : Flags, (offset h Slot.LA).isSome = h.CGL := by
    intro h; rcases h with ⟨_, _ | _, _, _, _⟩ <;> rfl
  have hSE : ∀ h : Flags, (offset h Slot.SE).isSome = h.TWOTEMP := by
    intro h; rcases h with ⟨_ | _, _ | _, _ | _, _, _⟩ <;> rfl
  have hBX : ∀ h : Flags, (offset h Slot.BX).isSome = h.MFIELD := by
    intro h; rcases h with ⟨_ | _, _ | _, _ | _, _, _⟩ <;> rfl
  by_contra hall
  push_neg at hall
  apply hne
  have h1 := hBX f
  have h2 := hLA f
  have h3 := hSE f
  rw [hall Slot.BX, hBX g] at h1
  rw [hall Slot.LA, hLA g] at h2
  rw [hall Slot.SE, hSE g] at h3
  rw [← h1, ← h2, ← h3]

/-- Witness of C13 at the two rows with `NMODES = 10`: field with CGL and field
with two temperatures. -/
theorem C13_layout_injective_witness :
    inTable ⟨true, true, false, false, false⟩ = true
      ∧ inTable ⟨true, false, true, false, false⟩ = true
      ∧ NMODES ⟨true, true, false, false, false⟩ = NMODES ⟨true, false, true, false, false⟩
      ∧ ∃ s : Slot, offset ⟨true, true, false, false, false⟩ s
          ≠ offset ⟨true, false, true, false, false⟩ s :=
  ⟨by decide, by decide, rfl, C13_layout_injective ⟨true, true, false, false, false⟩
    ⟨true, false, true, false, false⟩ (by decide)⟩

/-- C14 (counterexample): the ten tuples the specification's rules call valid
are pairwise distinct and the header resolves every one of them. -/
theorem C14_ten_tuples_resolve :
    (allTuples.filter specValid).length = 10
      ∧ (allTuples.filter specValid).Nodup
      ∧ (allTuples.filter specValid).all (fun x => resolves (flagsOf x)) = true := by
  decide

/-- C14 (amended): the header resolves every one of the sixteen tuples
`(hasMagneticField, hasCGLClosure, hasTwoTemperature, hasParticleCoupling)`. -/
theorem C14_sixteen_tuples_resolve :
    allTuples.Nodup
      ∧ (∀ x : Bool × Bool × Bool × Bool, x ∈ allTuples)
      ∧ (∀ x : Bool × Bool × Bool × Bool, resolves (flagsOf x) = true)
      ∧ (allTuples.filter (fun x => resolves (flagsOf x))).length = 16 := by
  refine ⟨by decide, ?_, ?_, by decide⟩
  · rintro ⟨_ | _, _ | _, _ | _, _ | _⟩ <;> decide
  · rintro ⟨_ | _, _ | _, _ | _, _ | _⟩ <;> decide

/-- C15: with `CGL` set and `MFIELD` and `TWOTEMP` clear the header defines
`NMODES = NVARS = 6` and the coexisting slots `LA` and `PSC` both get offset 5;
with `TWOTEMP` set as well, `LA` and `SE` both get offset 5. -/
theorem C15_LA_collides_without_field :
    NMODES ⟨false, true, false, false, false⟩ = some 6
      ∧ NVARS ⟨false, true, false, false, false⟩ = some 6
      ∧ Slot.LA ∈ coexisting ⟨false, true, false, false, false⟩
      ∧ Slot.PSC ∈ coexisting ⟨false, true, false, false, false⟩
      ∧ offset ⟨false, true, false, false, false⟩ Slot.LA = some 5
      ∧ offset ⟨false, true, false, false, false⟩ Slot.PSC = some 5
      ∧ ¬ (coexistingOffsets ⟨false, true, false, false, false⟩).Nodup
      ∧ offset ⟨false, true, true, false, false⟩ Slot.LA = some 5
      ∧ offset ⟨false, true, true, false, false⟩ Slot.SE = some 5 := by
  refine ⟨rfl, rfl, by decide, by decide, rfl, rfl, by decide, rfl, rfl⟩

/-- C16: for every assignment of the flags exactly one of the five `NMODES`
conditions holds, any two of them exclude each other, and `NMODES` is the
value of the block whose condition holds. -/
theorem C16_conditions_exclusive (f : Flags) :
    (activeBlocks f).length ≤ 1
      ∧ nmodesBlocks.Pairwise (fun a b => ¬ (a.cond f = true ∧ b.cond f = true))
      ∧ (∀ b ∈ activeBlocks f, NMODES f = some b.value)
      ∧ (inTable f = true → (activeBlocks f).length = 1) := by
  rcases f with ⟨_ | _, _ | _, _ | _, _ | _, _ | _⟩ <;>
    simp [activeBlocks, nmodesBlocks, NMODES, runBlocks]

/-- Witness of C16 at the row with field and CGL. -/
theorem C16_conditions_exclusive_witness :
    (activeBlocks ⟨true, true, false, false, false⟩).length = 1 :=
  (C16_conditions_exclusive ⟨true, true, false, false, false⟩).2.2.2 (by decide)

/-- C17: on every row of the mode-count table
`NMODES = 6 + 3*[MFIELD] + [CGL] + [TWOTEMP]`. -/
theorem C17_nmodes_additive (f : Flags) (h : inTable f = true) :
    NMODES f = some (specAdditive f) := by
  rcases f with ⟨_ | _, _ | _, _ | _, _ | _, _ | _⟩
  all_goals first
    | exact absurd h (by decide)
    | rfl

/-- Witness of C17 at the row with field, CGL and two temperatures. -/
theorem C17_nmodes_additive_witness :
    NMODES ⟨true, true, true, false, false⟩ = some (6 + 3 * 1 + 1 + 1) :=
  C17_nmodes_additive ⟨true, true, true, false, false⟩ (by decide)

/-- C18: in every configuration `RHO = 0`, `VX = MX = 1`, `VY = MY = 2`,
`VZ = MZ = 3`, `PR = EN = 4`, and with `CGL` set `LA = EN + 1` and
`PPD = PR + 1` are both 5 whatever `MFIELD` and `TWOTEMP` are. -/
theorem C18_fixed_indices (f : Flags) :
    offset f Slot.RHO = some 0
      ∧ offset f Slot.VX = some 1 ∧ offset f Slot.MX = some 1
      ∧ offset f Slot.VY = some 2 ∧ offset f Slot.MY = some 2
      ∧ offset f Slot.VZ = some 3 ∧ offset f Slot.MZ = some 3
      ∧ offset f Slot.PR = some 4 ∧ offset f Slot.EN = some 4
      ∧ (f.CGL = true →
          offset f Slot.LA = (offset f Slot.EN).map (fun e => e + 1)
            ∧ offset f Slot.PPD = (offset f Slot.PR).map (fun q => q + 1)
            ∧ offset f Slot.LA = some 5 ∧ offset f Slot.PPD = some 5) := by
  rcases f with ⟨_ | _, _ | _, _ | _, _ | _, _ | _⟩ <;> decide

/-- Witness of C18 at CGL without a magnetic field. -/
theorem C18_fixed_indices_witness :
    offset ⟨false, true, false, false, false⟩ Slot.LA = some 5
      ∧ offset ⟨false, true, false, false, false⟩ Slot.PPD = some 5 :=
  ⟨((C18_fixed_indices ⟨false, true, false, false, false⟩).2.2.2.2.2.2.2.2.2 rfl).2.2.1,
    ((C18_fixed_indices ⟨false, true, false, false, false⟩).2.2.2.2.2.2.2.2.2 rfl).2.2.2⟩

/-- C19: with a magnetic field the replacement list of `NVARS` is the three
tokens `NMODES + 3`, so `k * NVARS` evaluates to `k * NMODES + 3` and
`NVARS * k` to `NMODES + 3 * k`; with `NMODES = 9`, `2 * NVARS` is 21 and
`NVARS * 2` is 15, not `2 * (9 + 3) = 24`. -/
theorem C19_nvars_not_parenthesised (c t p s : Bool) (k : Int) :
    (∃ n : Nat, NMODES ⟨true, c, t, p, s⟩ = some n
        ∧ NVARS ⟨true, c, t, p, s⟩ = some ((n : Int) + 3)
        ∧ expandAtUse ⟨true, c, t, p, s⟩ [Tok.num k, Tok.star] [] = some (k * n + 3)
        ∧ expandAtUse ⟨true, c, t, p, s⟩ [] [Tok.star, Tok.num k] = some (n + 3 * k))
      ∧ expandAtUse ⟨true, false, false, false, false⟩ [Tok.num 2, Tok.star] [] = some 21
      ∧ expandAtUse ⟨true, false, false, false, false⟩ [] [Tok.star, Tok.num 2] = some 15
      ∧ NMODES ⟨true, false, false, false, false⟩ = some 9 := by
  refine ⟨?_, by decide, by decide, rfl⟩
  rcases c with _ | _ <;> rcases t with _ | _ <;>
    refine ⟨_, rfl, rfl, ?_, ?_⟩ <;>
    simp [expandAtUse, NVARS_tokens, NMODES, runBlocks, nmodesBlocks, evalToks, evalFrom]

end Defs
